import Mathlib

/-!
Shallow embedding of the admin order-lifecycle actions of the shop
repository (`src/actions/admin-orders.ts`) and of the `ShopLogo` UI
component (`src/components/nav/shop-logo.tsx`).

The persistent store is modelled as an explicit record of rows; each
server action becomes a pure function from the store (plus its inputs
and the outcomes of external collaborators) to a result record holding
the new store, the list of invalidated view paths, and either a normal
return value or the raised error.  JavaScript truthiness on optional
strings / numbers is modelled explicitly.  The external URL parser
(`new URL`) and the HTTP fetch of the payment gateway are modelled as
oracle parameters, since their behaviour is platform code, not code of
this repository.
-/

namespace LdcShop

/-- Order status column (text enum in the schema). -/
inductive OrderStatus where
  | pending
  | paid
  | delivered
  | cancelled
  | refunded
deriving DecidableEq, Repr

/-- A row of the `orders` table; optional columns are `Option`. -/
structure Order where
  orderId : String
  status : OrderStatus
  paidAt : Option Nat
  deliveredAt : Option Nat
  userId : Option String
  pointsUsed : Option Int
  email : Option String
  cardKey : Option String
deriving DecidableEq, Repr

/-- A row of the `cards` table. -/
structure Card where
  cardKey : String
  isUsed : Bool
  reservedOrderId : Option String
  reservedAt : Option Nat
deriving DecidableEq, Repr

/-- A row of the `loginUsers` table. -/
structure LoginUser where
  userId : String
  points : Int
deriving DecidableEq, Repr

/-- A row of the `refundRequests` table. -/
structure RefundRequest where
  orderId : String
deriving DecidableEq, Repr

/-- The persistent store. -/
structure DB where
  orders : List Order
  cards : List Card
  loginUsers : List LoginUser
  refundRequests : List RefundRequest
deriving DecidableEq, Repr

/-- Errors raised by the actions (`throw new Error(...)` sites), tagged
with the spec taxonomy and carrying the source message. -/
inductive Err where
  | unauthorized
  | invalidArgument (msg : String)
  | notFound (msg : String)
  | preconditionFailed (msg : String)
  | configError (msg : String)
  | storeError (msg : String)
deriving DecidableEq, Repr

/-- Result of running one action: the store afterwards, the view paths
passed to `revalidatePath` (in call order), and either the returned
value or the raised error. -/
structure OpResult (α : Type) where
  db : DB
  paths : List String
  ret : Except Err α
deriving Repr

/-- JavaScript truthiness of an optional string: `null`/`undefined` and
the empty string are falsy. -/
def strTruthy : Option String → Bool
  | none => false
  | some s => s ≠ ""

/-- Whether the first list is a prefix of the second, as an executable
boolean on character lists. -/
def leadsWith : List Char → List Char → Bool
  | [], _ => true
  | _ :: _, [] => false
  | p :: ps, c :: cs => p = c && leadsWith ps cs

/-- JavaScript `String.prototype.trim` (whitespace stripped from both
ends), implemented on the character list so it evaluates by kernel
reduction. -/
def jsTrim (s : String) : String :=
  ⟨((s.data.dropWhile Char.isWhitespace).reverse.dropWhile Char.isWhitespace).reverse⟩

/-- JavaScript `String.prototype.endsWith`. -/
def jsEndsWith (s suffix : String) : Bool :=
  leadsWith suffix.data.reverse s.data.reverse

/-- JavaScript `String.prototype.slice(0, 1)`: the first character as a
one-character string, or the empty string. -/
def jsSliceOne (s : String) : String :=
  ⟨s.data.take 1⟩

/-- The `revalidatePath` targets used by the actions. -/
def adminOrdersPath : String := "/admin/orders"

def adminOrderDetailPath (orderId : String) : String :=
  "/admin/orders/" ++ orderId

def publicOrderPath (orderId : String) : String :=
  "/order/" ++ orderId

/-- Look up the first order row with the given id
(`db.query.orders.findFirst({where: eq(orders.orderId, orderId)})`). -/
def findOrder (db : DB) (orderId : String) : Option Order :=
  db.orders.find? (fun o => o.orderId = orderId)

/-- `markOrderPaid`: admin check, reject empty id, then unconditionally
set status `paid` and `paidAt` on every row matching the id, and
revalidate three views. -/
def markOrderPaid (admin : Bool) (now : Nat) (db : DB) (orderId : String) :
    OpResult Unit :=
  if admin = false then ⟨db, [], .error .unauthorized⟩
  else if orderId = "" then ⟨db, [], .error (.invalidArgument "Missing order id")⟩
  else
    let orders2 := db.orders.map (fun o =>
      if o.orderId = orderId then
        { o with status := OrderStatus.paid, paidAt := some now }
      else o)
    ⟨{ db with orders := orders2 },
      [adminOrdersPath, adminOrderDetailPath orderId, publicOrderPath orderId],
      .ok ()⟩

/-- `markOrderDelivered`: admin check, reject empty id, require the
order to exist and to have a truthy `cardKey`, then set status
`delivered` and `deliveredAt`. -/
def markOrderDelivered (admin : Bool) (now : Nat) (db : DB) (orderId : String) :
    OpResult Unit :=
  if admin = false then ⟨db, [], .error .unauthorized⟩
  else if orderId = "" then ⟨db, [], .error (.invalidArgument "Missing order id")⟩
  else
    match findOrder db orderId with
    | none => ⟨db, [], .error (.notFound "Order not found")⟩
    | some o =>
      if strTruthy o.cardKey = false then
        ⟨db, [], .error (.preconditionFailed "Missing card key; cannot mark delivered")⟩
      else
        let orders2 := db.orders.map (fun x =>
          if x.orderId = orderId then
            { x with status := OrderStatus.delivered, deliveredAt := some now }
          else x)
        ⟨{ db with orders := orders2 },
          [adminOrdersPath, adminOrderDetailPath orderId, publicOrderPath orderId],
          .ok ()⟩

/-- Credit `p` points to every `loginUsers` row whose `userId` matches
(`UPDATE loginUsers SET points = points + p WHERE userId = u`). -/
def creditPoints (users : List LoginUser) (u : String) (p : Int) :
    List LoginUser :=
  users.map (fun w => if w.userId = u then { w with points := w.points + p } else w)

/-- Clear the reservation fields of every card reserved for the order
and not yet used (`UPDATE cards SET reservedOrderId = NULL, reservedAt
= NULL WHERE reservedOrderId = orderId AND isUsed = false`). -/
def releaseCards (cs : List Card) (orderId : String) : List Card :=
  cs.map (fun c =>
    if c.reservedOrderId = some orderId && c.isUsed = false then
      { c with reservedOrderId := none, reservedAt := none }
    else c)

/-- Points table after the conditional refund step of
`cancelOrder`/`deleteOneOrder` for the given order row lookup result. -/
def refundStep (users : List LoginUser) (found : Option Order) :
    List LoginUser :=
  match found with
  | some o =>
    match o.userId, o.pointsUsed with
    | some u, some p => if u ≠ "" && 0 < p then creditPoints users u p else users
    | _, _ => users
  | none => users

/-- Body of the `cancelOrder` transaction: refund points when the guard
holds, set status `cancelled`, and release unused reserved cards.  The
best-effort `ALTER TABLE` calls are schema self-healing with no row
effect and are not modelled.  The body has no failure path. -/
def cancelOrderTx (db : DB) (orderId : String) : DB :=
  let users2 := refundStep db.loginUsers (findOrder db orderId)
  let orders2 := db.orders.map (fun o =>
    if o.orderId = orderId then { o with status := OrderStatus.cancelled } else o)
  let cards2 := releaseCards db.cards orderId
  { db with orders := orders2, cards := cards2, loginUsers := users2 }

/-- `cancelOrder`: admin check, reject empty id, run the transaction
body, then revalidate three views. -/
def cancelOrder (admin : Bool) (db : DB) (orderId : String) : OpResult Unit :=
  if admin = false then ⟨db, [], .error .unauthorized⟩
  else if orderId = "" then ⟨db, [], .error (.invalidArgument "Missing order id")⟩
  else
    ⟨cancelOrderTx db orderId,
      [adminOrdersPath, adminOrderDetailPath orderId, publicOrderPath orderId],
      .ok ()⟩

/-- `updateOrderEmail`: admin check, reject empty id, trim the email,
normalise empty-after-trim to `NULL`, set it on matching rows, and
revalidate the two admin views. -/
def updateOrderEmail (admin : Bool) (db : DB) (orderId : String)
    (email : Option String) : OpResult Unit :=
  if admin = false then ⟨db, [], .error .unauthorized⟩
  else if orderId = "" then ⟨db, [], .error (.invalidArgument "Missing order id")⟩
  else
    let next := jsTrim (email.getD "")
    let orders2 := db.orders.map (fun o =>
      if o.orderId = orderId then
        { o with email := if next = "" then none else some next }
      else o)
    ⟨{ db with orders := orders2 },
      [adminOrdersPath, adminOrderDetailPath orderId],
      .ok ()⟩

/-- `db.transaction`: run the body; on success keep its state, on a
raised error roll back to the state at entry and re-raise. -/
def runTransaction (db : DB) (body : DB → Except Err DB) : DB × Option Err :=
  match body db with
  | .ok db2 => (db2, none)
  | .error e => (db, some e)

/-- `deleteOneOrder` (the shared per-order routine, run inside a caller
transaction): silently return when the order does not exist; otherwise
refund points under the guard, release unused reserved cards, delete
dependent refund-request rows (best effort), and delete the order row.
`storeFail` models the store raising on the final order-row delete for
a given id (e.g. a store error); the best-effort `ALTER TABLE` calls
are schema self-healing with no row effect and are not modelled. -/
def deleteOneOrder (storeFail : String → Bool) (db : DB) (orderId : String) :
    Except Err DB :=
  match findOrder db orderId with
  | none => .ok db
  | some _ =>
    let users2 := refundStep db.loginUsers (findOrder db orderId)
    let cards2 := releaseCards db.cards orderId
    let rr2 := db.refundRequests.filter (fun r => r.orderId ≠ orderId)
    if storeFail orderId then .error (.storeError "delete failed")
    else
      .ok { db with orders := db.orders.filter (fun o => o.orderId ≠ orderId),
                    cards := cards2, loginUsers := users2, refundRequests := rr2 }

/-- `deleteOrder`: admin check, reject empty id, run `deleteOneOrder`
in its own transaction, then revalidate the two admin views. -/
def deleteOrder (admin : Bool) (storeFail : String → Bool) (db : DB)
    (orderId : String) : OpResult Unit :=
  if admin = false then ⟨db, [], .error .unauthorized⟩
  else if orderId = "" then ⟨db, [], .error (.invalidArgument "Missing order id")⟩
  else
    match runTransaction db (fun tx => deleteOneOrder storeFail tx orderId) with
    | (db2, none) =>
      ⟨db2, [adminOrdersPath, adminOrderDetailPath orderId], .ok ()⟩
    | (db2, some e) => ⟨db2, [], .error e⟩

/-- The id normalisation of `deleteOrders`:
`(orderIds || []).map((s) => String(s).trim()).filter(Boolean)`. -/
def normalizeIds (orderIds : List String) : List String :=
  (orderIds.map jsTrim).filter (fun s => s ≠ "")

/-- `deleteOrders`: admin check, normalise the id list, no-op when it
is empty, otherwise run `deleteOneOrder` for every id inside one shared
transaction, then revalidate the admin list view once. -/
def deleteOrders (admin : Bool) (storeFail : String → Bool) (db : DB)
    (orderIds : List String) : OpResult Unit :=
  if admin = false then ⟨db, [], .error .unauthorized⟩
  else
    let ids := normalizeIds orderIds
    if ids.isEmpty then ⟨db, [], .ok ()⟩
    else
      match runTransaction db
          (fun tx => ids.foldlM (fun d i => deleteOneOrder storeFail d i) tx) with
      | (db2, none) => ⟨db2, [adminOrdersPath], .ok ()⟩
      | (db2, some e) => ⟨db2, [], .error e⟩

/-- Components of a successfully parsed URL, as produced by the
platform's `new URL`: `protocol` includes the trailing colon
(for example "https:"), `pathname` starts with "/". -/
structure ParsedUrl where
  protocol : String
  host : String
  pathname : String
deriving DecidableEq, Repr

/-- First-occurrence replacement on character lists: replace the
leftmost occurrence of `pat` with `rep`, or return the list unchanged
when `pat` does not occur. -/
def replaceFirstChars (pat rep : List Char) : List Char → List Char
  | [] => if leadsWith pat [] then rep else []
  | c :: rest =>
    if leadsWith pat (c :: rest) then rep ++ (c :: rest).drop pat.length
    else c :: replaceFirstChars pat rep rest

/-- First-occurrence string replacement, the semantics of JavaScript
`String.prototype.replace` with a string pattern. -/
def replaceFirst (s pat rep : String) : String :=
  ⟨replaceFirstChars pat.data rep.data s.data⟩

/-- The fixed default gateway status-query endpoint. -/
def defaultApiUrl : String := "https://credit.linux.do/epay/api.php"

/-- The endpoint-derivation step of `verifyOrderRefundStatus`, given
the outcome of `new URL(payUrl)` (`none` models the constructor
throwing on an unparseable URL): substitute the submission path segment
with `/api.php`; when the parse throws keep the fixed default; when the
substituted URL does not end in "api.php" use
`protocol//host/epay/api.php` from the parsed URL. -/
def deriveApiUrl (payUrlParsed : Option ParsedUrl) : String :=
  match payUrlParsed with
  | none => defaultApiUrl
  | some u =>
    let p2 := replaceFirst
      (replaceFirst u.pathname "/pay/submit.php" "/api.php") "/submit.php" "/api.php"
    let apiUrl := u.protocol ++ "//" ++ u.host ++ p2
    if jsEndsWith apiUrl "api.php" then apiUrl
    else u.protocol ++ "//" ++ u.host ++ "/epay/api.php"

/-- Outcome of `fetch` + `res.json()` on the gateway: either a parsed
JSON object (fields absent in the JSON are `none`) or a raised network
or parsing error carrying its message. -/
inductive FetchOutcome where
  | ok (code : Option Int) (status : Option Int) (msg : Option String)
  | fail (errMsg : String)
deriving DecidableEq, Repr

/-- The structured `{success, status?, msg?, error?}` result of
`verifyOrderRefundStatus`. -/
structure VerifyResult where
  success : Bool
  status : Option Int
  msg : Option String
  error : Option String
deriving DecidableEq, Repr

/-- Rendering of `data.status` inside the template string
`Status: ${data.status}` (an absent field prints as "undefined"). -/
def statusText : Option Int → String
  | some n => toString n
  | none => "undefined"

/-- `data.msg || 'Query failed'`. -/
def msgOrQueryFailed : Option String → String
  | some m => if m = "" then "Query failed" else m
  | none => "Query failed"

/-- `verifyOrderRefundStatus`: admin check, reject empty id, require
truthy merchant id and key, derive the api endpoint from the parse of
the configured pay URL, query the gateway (`fetchOracle` maps the
queried endpoint to the fetch outcome), and interpret the response.
Only a `{code:1, status:0}` response mutates the store (status
`refunded`) and invalidates the admin list view; every fetch outcome is
converted into a structured result, never re-raised. -/
def verifyOrderRefundStatus (admin : Bool) (merchantId merchantKey : Option String)
    (payUrlParsed : Option ParsedUrl) (fetchOracle : String → FetchOutcome)
    (db : DB) (orderId : String) : OpResult VerifyResult :=
  if admin = false then ⟨db, [], .error .unauthorized⟩
  else if orderId = "" then ⟨db, [], .error (.invalidArgument "Missing order id")⟩
  else if strTruthy merchantId = false || strTruthy merchantKey = false then
    ⟨db, [], .error (.configError "Missing merchant config")⟩
  else
    let apiUrl := deriveApiUrl payUrlParsed
    match fetchOracle apiUrl with
    | .fail m => ⟨db, [], .ok ⟨false, none, none, some m⟩⟩
    | .ok code status gmsg =>
      if code = some 1 then
        if status = some 0 then
          let orders2 := db.orders.map (fun o =>
            if o.orderId = orderId then { o with status := OrderStatus.refunded } else o)
          ⟨{ db with orders := orders2 }, [adminOrdersPath],
            .ok ⟨true, some 0, some "Refunded (Verified)", none⟩⟩
        else if status = some 1 then
          ⟨db, [], .ok ⟨true, some 1, some "Paid (Not Refunded)", none⟩⟩
        else
          ⟨db, [], .ok ⟨true, status, some ("Status: " ++ statusText status), none⟩⟩
      else
        ⟨db, [], .ok ⟨false, none, none, some (msgOrQueryFailed gmsg)⟩⟩

/-- `getFaviconUrl` of the `ShopLogo` component, given the outcome of
`new URL(url).origin` (`none` models the constructor throwing). -/
def getFaviconUrl (origin : Option String) : String :=
  match origin with
  | some o => o ++ "/favicon.ico"
  | none => ""

/-- What the `ShopLogo` component renders. -/
inductive LogoView where
  | image (src : String)
  | letter (l : String)
deriving DecidableEq, Repr

/-- `ShopLogo` rendering: fallback letter is the first character of the
trimmed name, or "L" when that is empty; source is the trimmed logo
when truthy, else the favicon URL; an image is rendered exactly when
the source is non-empty and no load error occurred, otherwise the
fallback letter. `error` is the component's image-load-error state. -/
def shopLogoRender (name : String) (origin : Option String)
    (logo : Option String) (error : Bool) : LogoView :=
  let fallbackLetter :=
    if jsSliceOne (jsTrim name) = "" then "L" else jsSliceOne (jsTrim name)
  let favicon := getFaviconUrl origin
  let src := if jsTrim (logo.getD "") = "" then favicon else jsTrim (logo.getD "")
  if src ≠ "" && error = false then .image src else .letter fallbackLetter

/-- A card's reservation fields after being released. -/
def clearedCard (c : Card) : Card :=
  { c with reservedOrderId := none, reservedAt := none }

/-- The first `loginUsers` row with the given user id, projected to its
points balance. -/
def userPoints (db : DB) (u : String) : Option Int :=
  (db.loginUsers.find? (fun w => w.userId = u)).map (fun w => w.points)

/-- Sample rows used to instantiate the theorems on concrete stores. -/
def sampleCard : Card :=
  ⟨"CARDKEY-1", false, some "ord-1", some 10⟩

def sampleUsedCard : Card :=
  ⟨"CARDKEY-2", true, some "ord-1", some 11⟩

def sampleOrder : Order :=
  ⟨"ord-1", OrderStatus.paid, some 5, none, some "u-1", some 30, some "a@b.com",
    some "CARDKEY-1"⟩

def orderNoCard : Order :=
  ⟨"ord-2", OrderStatus.paid, some 6, none, none, none, none, none⟩

def sampleUser : LoginUser := ⟨"u-1", 100⟩

def sampleDB : DB :=
  ⟨[sampleOrder, orderNoCard], [sampleCard, sampleUsedCard], [sampleUser],
    [⟨"ord-1"⟩]⟩

/-- Mapping a conditional row update over a table in which no row
matches leaves the table unchanged. -/
theorem map_if_no_match (orders : List Order) (orderId : String)
    (g : Order → Order)
    (h : orders.find? (fun o => o.orderId = orderId) = none) :
    orders.map (fun o => if o.orderId = orderId then g o else o) = orders := by
  induction orders with
  | nil => rfl
  | cons a t ih =>
    by_cases hc : a.orderId = orderId
    · simp [List.find?_cons, hc] at h
    · simp only [List.find?_cons, hc, decide_eq_true_eq, if_neg] at h
      simp [hc, ih h]

/-- C4: `markOrderDelivered` fails with InvalidArgument on an empty
order id, with NotFound when no order with that id exists, and with
PreconditionFailed when the order exists but its card key is empty or
null; in every failure case the store is left unchanged and no view is
invalidated. -/
theorem markOrderDelivered_failure_cases (db : DB) (now : Nat) (orderId : String) :
    (orderId = "" →
      markOrderDelivered true now db orderId =
        ⟨db, [], .error (.invalidArgument "Missing order id")⟩) ∧
    (orderId ≠ "" → findOrder db orderId = none →
      markOrderDelivered true now db orderId =
        ⟨db, [], .error (.notFound "Order not found")⟩) ∧
    (∀ o, orderId ≠ "" → findOrder db orderId = some o →
      strTruthy o.cardKey = false →
      markOrderDelivered true now db orderId =
        ⟨db, [], .error (.preconditionFailed "Missing card key; cannot mark delivered")⟩) := by
  refine ⟨fun h => by simp [markOrderDelivered, h], fun h1 h2 => ?_, fun o h1 h2 h3 => ?_⟩
  · simp [markOrderDelivered, h1, h2]
  · simp [markOrderDelivered, h1, h2, h3]

/-- Witness for C4 on a concrete store: the three failure cases of
`markOrderDelivered` at concrete inputs. -/
theorem markOrderDelivered_failure_cases_witness :
    markOrderDelivered true 7 sampleDB "nope" =
      ⟨sampleDB, [], .error (.notFound "Order not found")⟩ ∧
    markOrderDelivered true 7 sampleDB "ord-2" =
      ⟨sampleDB, [], .error (.preconditionFailed "Missing card key; cannot mark delivered")⟩ ∧
    markOrderDelivered true 7 sampleDB "" =
      ⟨sampleDB, [], .error (.invalidArgument "Missing order id")⟩ := by
  refine ⟨?_, ?_, ?_⟩
  · exact (markOrderDelivered_failure_cases sampleDB 7 "nope").2.1
      (by decide) (by decide)
  · exact (markOrderDelivered_failure_cases sampleDB 7 "ord-2").2.2 orderNoCard
      (by decide) (by decide) (by decide)
  · exact (markOrderDelivered_failure_cases sampleDB 7 "").1 rfl

/-- C8: `deleteOrders` trims and filters the input ids; when the
normalised list is empty the operation is a no-op: the store is
unchanged, nothing is invalidated, and no error is raised. -/
theorem deleteOrders_blank_noop (db : DB) (storeFail : String → Bool)
    (ids : List String) (h : normalizeIds ids = []) :
    deleteOrders true storeFail db ids = ⟨db, [], .ok ()⟩ := by
  simp [deleteOrders, h]

/-- Witness for C8: both the empty list and a list of blank ids are
no-ops on a concrete store. -/
theorem deleteOrders_blank_noop_witness :
    deleteOrders true (fun _ => false) sampleDB [" ", ""] =
      ⟨sampleDB, [], .ok ()⟩ ∧
    deleteOrders true (fun _ => false) sampleDB [] =
      ⟨sampleDB, [], .ok ()⟩ :=
  ⟨deleteOrders_blank_noop sampleDB (fun _ => false) [" ", ""] (by decide),
   deleteOrders_blank_noop sampleDB (fun _ => false) [] (by decide)⟩

/-- C9: for a non-empty order id with no matching row, `markOrderPaid`
and `updateOrderEmail` complete without error, change no order row, and
still fire their view invalidations; only `markOrderDelivered` checks
existence and fails with NotFound on the same input. -/
theorem missing_order_tolerated (db : DB) (now : Nat) (orderId : String)
    (email : Option String) (h1 : orderId ≠ "")
    (h2 : findOrder db orderId = none) :
    markOrderPaid true now db orderId =
      ⟨db, [adminOrdersPath, adminOrderDetailPath orderId, publicOrderPath orderId],
        .ok ()⟩ ∧
    updateOrderEmail true db orderId email =
      ⟨db, [adminOrdersPath, adminOrderDetailPath orderId], .ok ()⟩ ∧
    (markOrderDelivered true now db orderId).ret =
      .error (.notFound "Order not found") := by
  have h2' : db.orders.find? (fun o => o.orderId = orderId) = none := h2
  refine ⟨?_, ?_, ?_⟩
  · simp [markOrderPaid, h1, map_if_no_match _ _ _ h2']
  · simp [updateOrderEmail, h1, map_if_no_match _ _ _ h2']
  · simp [markOrderDelivered, h1, h2]

/-- Witness for C9: `markOrderPaid` and `updateOrderEmail` on a
concrete store and an id with no matching order row. -/
theorem missing_order_tolerated_witness :
    markOrderPaid true 3 sampleDB "ghost" =
      ⟨sampleDB, ["/admin/orders", "/admin/orders/ghost", "/order/ghost"],
        .ok ()⟩ ∧
    updateOrderEmail true sampleDB "ghost" (some " x@y.z ") =
      ⟨sampleDB, ["/admin/orders", "/admin/orders/ghost"], .ok ()⟩ ∧
    (markOrderDelivered true 3 sampleDB "ghost").ret =
      .error (.notFound "Order not found") := by
  have h := missing_order_tolerated sampleDB 3 "ghost" (some " x@y.z ")
    (by decide) (by decide)
  exact ⟨h.1, h.2.1, h.2.2⟩

/-- Unfolding equation of `creditPoints` on a cons cell. -/
theorem creditPoints_cons (a : LoginUser) (t : List LoginUser) (u : String)
    (p : Int) :
    creditPoints (a :: t) u p =
      (if a.userId = u then { a with points := a.points + p } else a) ::
        creditPoints t u p := rfl

/-- Looking up a user's row after `creditPoints` returns the row before
it, with the credited balance. -/
theorem creditPoints_find (users : List LoginUser) (u : String) (p : Int) :
    (creditPoints users u p).find? (fun w => w.userId = u) =
      (users.find? (fun w => w.userId = u)).map
        (fun w => { w with points := w.points + p }) := by
  induction users with
  | nil => rfl
  | cons a t ih =>
    rw [creditPoints_cons, List.find?_cons, List.find?_cons]
    by_cases hc : a.userId = u
    · simp [hc]
    · simp [hc, ih]

/-- C1: when `cancelOrder` succeeds on an order whose user id is truthy
and whose `pointsUsed` is positive, that user's balance afterwards is
its balance before plus `pointsUsed`; when the order has no truthy user
id, or `pointsUsed` is absent or zero, the cancellation leaves the
whole points table untouched. -/
theorem cancelOrder_points_refund (db : DB) (orderId : String)
    (h : orderId ≠ "") :
    (cancelOrder true db orderId).ret = .ok () ∧
    (∀ o u p, findOrder db orderId = some o → o.userId = some u → u ≠ "" →
      o.pointsUsed = some p → 0 < p →
      userPoints (cancelOrder true db orderId).db u =
        (userPoints db u).map (fun b => b + p)) ∧
    (∀ o, findOrder db orderId = some o →
      (o.userId = none ∨ o.userId = some "" ∨ o.pointsUsed = none ∨
        o.pointsUsed = some 0) →
      (cancelOrder true db orderId).db.loginUsers = db.loginUsers) := by
  have hdb : (cancelOrder true db orderId).db = cancelOrderTx db orderId := by
    simp [cancelOrder, h]
  refine ⟨by simp [cancelOrder, h], fun o u p hfind hu hune hp hpos => ?_,
    fun o hfind hcase => ?_⟩
  · rw [hdb]
    have husers : (cancelOrderTx db orderId).loginUsers =
        creditPoints db.loginUsers u p := by
      simp [cancelOrderTx, refundStep, hfind, hu, hp, hune, hpos]
    simp only [userPoints, husers, creditPoints_find]
    cases db.loginUsers.find? (fun w => w.userId = u) <;> simp
  · rw [hdb]
    simp only [cancelOrderTx, refundStep, hfind]
    rcases hcase with hc | hc | hc | hc <;> simp [hc]
    · cases hpu : o.pointsUsed <;> simp
    · cases hui : o.userId <;> simp

/-- Witness for C1 on a concrete store: cancelling `ord-1` (user
"u-1", 30 points used) raises the balance from 100 to 130, and
cancelling `ord-2` (no user id) leaves the points table unchanged. -/
theorem cancelOrder_points_refund_witness :
    userPoints (cancelOrder true sampleDB "ord-1").db "u-1" = some 130 ∧
    (cancelOrder true sampleDB "ord-2").db.loginUsers = sampleDB.loginUsers := by
  constructor
  · have h := (cancelOrder_points_refund sampleDB "ord-1" (by decide)).2.1
      sampleOrder "u-1" 30 (by decide) (by decide) (by decide) (by decide)
      (by decide)
    rw [h]; decide
  · exact (cancelOrder_points_refund sampleDB "ord-2" (by decide)).2.2
      orderNoCard (by decide) (Or.inl (by decide))

/-- Membership facts about `releaseCards`: an unused card reserved for
the order appears released afterwards, and a used card appears
unchanged. -/
theorem releaseCards_mem (cs : List Card) (orderId : String) (c : Card)
    (hc : c ∈ cs) :
    (c.isUsed = false → c.reservedOrderId = some orderId →
      clearedCard c ∈ releaseCards cs orderId) ∧
    (c.isUsed = true → c ∈ releaseCards cs orderId) := by
  constructor
  · intro h1 h2
    have hm := List.mem_map_of_mem
      (f := fun x => if x.reservedOrderId = some orderId && x.isUsed = false
        then { x with reservedOrderId := none, reservedAt := none } else x) hc
    simpa [releaseCards, h1, h2, clearedCard] using hm
  · intro h1
    have hm := List.mem_map_of_mem
      (f := fun x => if x.reservedOrderId = some orderId && x.isUsed = false
        then { x with reservedOrderId := none, reservedAt := none } else x) hc
    simpa [releaseCards, h1] using hm

/-- C3: both `cancelOrder` and a successful `deleteOrder` clear the
reservation fields of every card whose reservation points at the
cancelled or deleted order while its used flag is false, and leave
every card with a true used flag untouched. -/
theorem card_reservation_release (db : DB) (orderId : String)
    (storeFail : String → Bool) (h : orderId ≠ "") :
    (∀ c ∈ db.cards,
      (c.isUsed = false → c.reservedOrderId = some orderId →
        clearedCard c ∈ (cancelOrder true db orderId).db.cards) ∧
      (c.isUsed = true → c ∈ (cancelOrder true db orderId).db.cards)) ∧
    (∀ o, findOrder db orderId = some o →
      (deleteOrder true storeFail db orderId).ret = .ok () →
      ∀ c ∈ db.cards,
        (c.isUsed = false → c.reservedOrderId = some orderId →
          clearedCard c ∈ (deleteOrder true storeFail db orderId).db.cards) ∧
        (c.isUsed = true → c ∈ (deleteOrder true storeFail db orderId).db.cards)) := by
  constructor
  · intro c hcmem
    have hcards : (cancelOrder true db orderId).db.cards =
        releaseCards db.cards orderId := by
      simp [cancelOrder, h, cancelOrderTx]
    rw [hcards]
    exact releaseCards_mem db.cards orderId c hcmem
  · intro o hfind hok c hcmem
    by_cases hsf : storeFail orderId = true
    · exact absurd hok
        (by simp [deleteOrder, h, runTransaction, deleteOneOrder, hfind, hsf])
    · have hsf' : storeFail orderId = false := by
        cases hb : storeFail orderId
        · rfl
        · exact absurd hb hsf
      have hcards : (deleteOrder true storeFail db orderId).db.cards =
          releaseCards db.cards orderId := by
        simp [deleteOrder, h, runTransaction, deleteOneOrder, hfind, hsf']
      rw [hcards]
      exact releaseCards_mem db.cards orderId c hcmem

/-- Witness for C3 on a concrete store: cancelling and deleting
`ord-1` releases the unused reserved card and keeps the used card
as it is. -/
theorem card_reservation_release_witness :
    clearedCard sampleCard ∈ (cancelOrder true sampleDB "ord-1").db.cards ∧
    sampleUsedCard ∈ (cancelOrder true sampleDB "ord-1").db.cards ∧
    clearedCard sampleCard ∈
      (deleteOrder true (fun _ => false) sampleDB "ord-1").db.cards ∧
    sampleUsedCard ∈
      (deleteOrder true (fun _ => false) sampleDB "ord-1").db.cards := by
  have hc := card_reservation_release sampleDB "ord-1" (fun _ => false) (by decide)
  refine ⟨(hc.1 sampleCard (by decide)).1 (by decide) (by decide),
    (hc.1 sampleUsedCard (by decide)).2 (by decide),
    (hc.2 sampleOrder (by decide) (by rfl) sampleCard (by decide)).1
      (by decide) (by decide),
    (hc.2 sampleOrder (by decide) (by rfl) sampleUsedCard (by decide)).2
      (by decide)⟩

/-- C2: when `deleteOrders` fails while processing any order of the
batch, the one shared transaction rolls everything back: the store
afterwards is exactly the store before the call and no view is
invalidated, so no partial deletion across orders is observable. -/
theorem deleteOrders_batch_atomic (db : DB) (storeFail : String → Bool)
    (orderIds : List String) (e : Err)
    (h : (deleteOrders true storeFail db orderIds).ret = .error e) :
    (deleteOrders true storeFail db orderIds).db = db ∧
    (deleteOrders true storeFail db orderIds).paths = [] := by
  by_cases hids : (normalizeIds orderIds).isEmpty = true
  · simp [deleteOrders, hids] at h
  · cases hbody : (normalizeIds orderIds).foldlM
        (fun d i => deleteOneOrder storeFail d i) db with
    | ok db2 => simp [deleteOrders, hids, runTransaction, hbody] at h
    | error e2 =>
      constructor <;> simp [deleteOrders, hids, runTransaction, hbody]

/-- Witness for C2 on a concrete store: deleting `[ord-1, ord-2]`
where the store fails on `ord-2` leaves the whole store unchanged
(in particular `ord-1` is not deleted) and fires no invalidation. -/
theorem deleteOrders_batch_atomic_witness :
    (deleteOrders true (fun s => s == "ord-2") sampleDB
      ["ord-1", "ord-2"]).db = sampleDB ∧
    (deleteOrders true (fun s => s == "ord-2") sampleDB
      ["ord-1", "ord-2"]).paths = [] :=
  deleteOrders_batch_atomic sampleDB (fun s => s == "ord-2")
    ["ord-1", "ord-2"] (.storeError "delete failed") (by rfl)

/-- C5: with a non-empty order id and configured credentials, a
gateway response `{code:1, status:0}` makes `verifyOrderRefundStatus`
set the matching order rows to `refunded`, invalidate the admin list
view, and return success with message "Refunded (Verified)"; a
response `{code:1, status:1}` leaves the store untouched and returns
success with message "Paid (Not Refunded)". -/
theorem verify_refund_status_interpretation (merchantId merchantKey : Option String)
    (purl : Option ParsedUrl) (oracle : String → FetchOutcome) (db : DB)
    (orderId : String) (h1 : orderId ≠ "") (h2 : strTruthy merchantId = true)
    (h3 : strTruthy merchantKey = true) :
    (∀ gmsg, oracle (deriveApiUrl purl) = .ok (some 1) (some 0) gmsg →
      (verifyOrderRefundStatus true merchantId merchantKey purl oracle db orderId).ret =
        .ok ⟨true, some 0, some "Refunded (Verified)", none⟩ ∧
      (verifyOrderRefundStatus true merchantId merchantKey purl oracle db orderId).paths =
        [adminOrdersPath] ∧
      (∀ o ∈ db.orders, o.orderId = orderId →
        { o with status := OrderStatus.refunded } ∈
          (verifyOrderRefundStatus true merchantId merchantKey purl oracle db
            orderId).db.orders)) ∧
    (∀ gmsg, oracle (deriveApiUrl purl) = .ok (some 1) (some 1) gmsg →
      verifyOrderRefundStatus true merchantId merchantKey purl oracle db orderId =
        ⟨db, [], .ok ⟨true, some 1, some "Paid (Not Refunded)", none⟩⟩) := by
  constructor
  · intro gmsg hfo
    refine ⟨by simp [verifyOrderRefundStatus, h1, h2, h3, hfo],
      by simp [verifyOrderRefundStatus, h1, h2, h3, hfo], fun o hom ho => ?_⟩
    have hdbo : (verifyOrderRefundStatus true merchantId merchantKey purl oracle db
        orderId).db.orders = db.orders.map (fun o =>
          if o.orderId = orderId then { o with status := OrderStatus.refunded }
          else o) := by
      simp [verifyOrderRefundStatus, h1, h2, h3, hfo]
    rw [hdbo]
    have hm := List.mem_map_of_mem
      (f := fun o => if o.orderId = orderId then
        { o with status := OrderStatus.refunded } else o) hom
    simpa [ho] using hm
  · intro gmsg hfo
    simp [verifyOrderRefundStatus, h1, h2, h3, hfo]

/-- Witness for C5 on a concrete store and gateway oracles for the two
response shapes. -/
theorem verify_refund_status_interpretation_witness :
    (verifyOrderRefundStatus true (some "mid") (some "mkey") none
      (fun _ => FetchOutcome.ok (some 1) (some 0) none) sampleDB "ord-1").ret =
      .ok ⟨true, some 0, some "Refunded (Verified)", none⟩ ∧
    { sampleOrder with status := OrderStatus.refunded } ∈
      (verifyOrderRefundStatus true (some "mid") (some "mkey") none
        (fun _ => FetchOutcome.ok (some 1) (some 0) none) sampleDB
        "ord-1").db.orders ∧
    verifyOrderRefundStatus true (some "mid") (some "mkey") none
      (fun _ => FetchOutcome.ok (some 1) (some 1) none) sampleDB "ord-1" =
      ⟨sampleDB, [], .ok ⟨true, some 1, some "Paid (Not Refunded)", none⟩⟩ := by
  have hA := verify_refund_status_interpretation (some "mid") (some "mkey") none
    (fun _ => FetchOutcome.ok (some 1) (some 0) none) sampleDB "ord-1"
    (by decide) (by decide) (by decide)
  have hB := verify_refund_status_interpretation (some "mid") (some "mkey") none
    (fun _ => FetchOutcome.ok (some 1) (some 1) none) sampleDB "ord-1"
    (by decide) (by decide) (by decide)
  exact ⟨(hA.1 none rfl).1,
    (hA.1 none rfl).2.2 sampleOrder (by decide) (by decide),
    hB.2 none rfl⟩

/-- Counterexample to C6 as stated: an empty order id is an input on
which `verifyOrderRefundStatus` raises (InvalidArgument) rather than
returning a structured result, and absent merchant credentials raise a
configuration error likewise. -/
theorem verify_raises_on_empty_order_id :
    (verifyOrderRefundStatus true (some "mid") (some "mkey") none
      (fun _ => FetchOutcome.fail "network down") sampleDB "").ret =
      .error (.invalidArgument "Missing order id") ∧
    (verifyOrderRefundStatus true none none none
      (fun _ => FetchOutcome.fail "network down") sampleDB "ord-1").ret =
      .error (.configError "Missing merchant config") :=
  ⟨rfl, rfl⟩

/-- C6 (amended): with a non-empty order id and configured
credentials, `verifyOrderRefundStatus` always returns a structured
result and never raises: a network or parse failure is converted into
`{success:false, error: message}` with no store change, and a response
with `code ≠ 1` yields `{success:false, error: gateway msg or "Query
failed"}` with no store change and no invalidation. -/
theorem verify_never_raises (merchantId merchantKey : Option String)
    (purl : Option ParsedUrl) (oracle : String → FetchOutcome) (db : DB)
    (orderId : String) (h1 : orderId ≠ "") (h2 : strTruthy merchantId = true)
    (h3 : strTruthy merchantKey = true) :
    (∃ r, (verifyOrderRefundStatus true merchantId merchantKey purl oracle db
      orderId).ret = .ok r) ∧
    (∀ m, oracle (deriveApiUrl purl) = .fail m →
      verifyOrderRefundStatus true merchantId merchantKey purl oracle db orderId =
        ⟨db, [], .ok ⟨false, none, none, some m⟩⟩) ∧
    (∀ code st gm, oracle (deriveApiUrl purl) = .ok code st gm → code ≠ some 1 →
      verifyOrderRefundStatus true merchantId merchantKey purl oracle db orderId =
        ⟨db, [], .ok ⟨false, none, none, some (msgOrQueryFailed gm)⟩⟩) := by
  refine ⟨?_, fun m hm => by simp [verifyOrderRefundStatus, h1, h2, h3, hm],
    fun code st gm hm hne => by simp [verifyOrderRefundStatus, h1, h2, h3, hm, hne]⟩
  cases hfo : oracle (deriveApiUrl purl) with
  | fail m =>
    exact ⟨⟨false, none, none, some m⟩,
      by simp [verifyOrderRefundStatus, h1, h2, h3, hfo]⟩
  | ok code st gm =>
    by_cases hc : code = some 1
    · by_cases hs0 : st = some 0
      · exact ⟨⟨true, some 0, some "Refunded (Verified)", none⟩,
          by simp [verifyOrderRefundStatus, h1, h2, h3, hfo, hc, hs0]⟩
      · by_cases hs1 : st = some 1
        · exact ⟨⟨true, some 1, some "Paid (Not Refunded)", none⟩,
            by simp [verifyOrderRefundStatus, h1, h2, h3, hfo, hc, hs0, hs1]⟩
        · exact ⟨⟨true, st, some ("Status: " ++ statusText st), none⟩,
            by simp [verifyOrderRefundStatus, h1, h2, h3, hfo, hc, hs0, hs1]⟩
    · exact ⟨⟨false, none, none, some (msgOrQueryFailed gm)⟩,
        by simp [verifyOrderRefundStatus, h1, h2, h3, hfo, hc]⟩

/-- Witness for the amended C6 on a concrete store: a network failure
and a `{code:0}` response are both converted into structured failure
results with the store unchanged. -/
theorem verify_never_raises_witness :
    verifyOrderRefundStatus true (some "mid") (some "mkey") none
      (fun _ => FetchOutcome.fail "network down") sampleDB "ord-1" =
      ⟨sampleDB, [], .ok ⟨false, none, none, some "network down"⟩⟩ ∧
    verifyOrderRefundStatus true (some "mid") (some "mkey") none
      (fun _ => FetchOutcome.ok (some 0) none (some "bad pid")) sampleDB "ord-1" =
      ⟨sampleDB, [], .ok ⟨false, none, none, some "bad pid"⟩⟩ := by
  have hA := verify_never_raises (some "mid") (some "mkey") none
    (fun _ => FetchOutcome.fail "network down") sampleDB "ord-1"
    (by decide) (by decide) (by decide)
  have hB := verify_never_raises (some "mid") (some "mkey") none
    (fun _ => FetchOutcome.ok (some 0) none (some "bad pid")) sampleDB "ord-1"
    (by decide) (by decide) (by decide)
  exact ⟨hA.2.1 "network down" rfl,
    hB.2.2 (some 0) none (some "bad pid") rfl (by decide)⟩

/-- Counterexample to C7 as stated: for the parseable pay URL
"https://example.com/checkout" the substituted candidate does not end
in "api.php", yet the derived endpoint is
"https://example.com/epay/api.php", built from the parsed URL's host,
not the fixed default "https://credit.linux.do/epay/api.php". -/
theorem deriveApiUrl_not_fixed_default :
    replaceFirst (replaceFirst "/checkout" "/pay/submit.php" "/api.php")
      "/submit.php" "/api.php" = "/checkout" ∧
    jsEndsWith ("https:" ++ "//" ++ "example.com" ++ "/checkout") "api.php" = false ∧
    deriveApiUrl (some ⟨"https:", "example.com", "/checkout"⟩) =
      "https://example.com/epay/api.php" ∧
    deriveApiUrl (some ⟨"https:", "example.com", "/checkout"⟩) ≠ defaultApiUrl := by
  decide

/-- C7 (amended): the status-query endpoint is derived by substituting
the first "/pay/submit.php", else "/submit.php", path segment with
"/api.php"; when the pay URL is unparseable the fixed default endpoint
is used, and when the substituted URL does not end in "api.php" the
endpoint `protocol//host/epay/api.php` built from the parsed URL is
used instead. -/
theorem deriveApiUrl_fallback_shape :
    (deriveApiUrl none = defaultApiUrl) ∧
    (∀ u : ParsedUrl,
      jsEndsWith (u.protocol ++ "//" ++ u.host ++
        replaceFirst (replaceFirst u.pathname "/pay/submit.php" "/api.php")
          "/submit.php" "/api.php") "api.php" = true →
      deriveApiUrl (some u) =
        u.protocol ++ "//" ++ u.host ++
          replaceFirst (replaceFirst u.pathname "/pay/submit.php" "/api.php")
            "/submit.php" "/api.php") ∧
    (∀ u : ParsedUrl,
      jsEndsWith (u.protocol ++ "//" ++ u.host ++
        replaceFirst (replaceFirst u.pathname "/pay/submit.php" "/api.php")
          "/submit.php" "/api.php") "api.php" = false →
      deriveApiUrl (some u) = u.protocol ++ "//" ++ u.host ++ "/epay/api.php") := by
  refine ⟨rfl, fun u hu => by simp [deriveApiUrl, hu],
    fun u hu => by simp [deriveApiUrl, hu]⟩

/-- Witness for the amended C7: the standard submission URL derives
the standard api endpoint, and an unrecognised path derives the
host-based fallback. -/
theorem deriveApiUrl_fallback_shape_witness :
    deriveApiUrl (some ⟨"https:", "credit.linux.do", "/epay/pay/submit.php"⟩) =
      "https://credit.linux.do/epay/api.php" ∧
    deriveApiUrl (some ⟨"https:", "example.com", "/pay"⟩) =
      "https://example.com/epay/api.php" := by
  constructor
  · have h := deriveApiUrl_fallback_shape.2.1
      ⟨"https:", "credit.linux.do", "/epay/pay/submit.php"⟩ (by decide)
    rw [h]; decide
  · have h := deriveApiUrl_fallback_shape.2.2
      ⟨"https:", "example.com", "/pay"⟩ (by decide)
    rw [h]; decide

/-- C10: `ShopLogo` renders the trimmed logo when it is non-empty,
else the favicon URL derived from the shop URL's origin; an
unparseable URL gives the empty favicon; and with no usable source or
after an image load error it renders the first character of the
trimmed name, or "L" when the trimmed name is empty. -/
theorem shopLogo_rendering (name : String) (origin : Option String)
    (logo : Option String) (error : Bool) :
    (jsTrim (logo.getD "") ≠ "" → error = false →
      shopLogoRender name origin logo error = .image (jsTrim (logo.getD ""))) ∧
    (jsTrim (logo.getD "") = "" → getFaviconUrl origin ≠ "" → error = false →
      shopLogoRender name origin logo error = .image (getFaviconUrl origin)) ∧
    (getFaviconUrl none = "") ∧
    (jsTrim (logo.getD "") = "" → origin = none →
      shopLogoRender name origin logo error =
        .letter (if jsSliceOne (jsTrim name) = "" then "L"
          else jsSliceOne (jsTrim name))) ∧
    (error = true →
      shopLogoRender name origin logo error =
        .letter (if jsSliceOne (jsTrim name) = "" then "L"
          else jsSliceOne (jsTrim name))) := by
  refine ⟨fun h1 h2 => ?_, fun h1 h2 h3 => ?_, rfl, fun h1 h2 => ?_,
    fun h1 => ?_⟩
  · simp [shopLogoRender, h1, h2]
  · simp [shopLogoRender, h1, h2, h3]
  · simp [shopLogoRender, h1, h2, getFaviconUrl]
  · simp [shopLogoRender, h1]

/-- Witness for C10 at concrete props: explicit logo, favicon
fallback, unparseable URL, and blank-name letter fallback. -/
theorem shopLogo_rendering_witness :
    shopLogoRender "My Shop" (some "https://shop.example") (some " logo.png ")
      false = .image "logo.png" ∧
    shopLogoRender "My Shop" (some "https://shop.example") none false =
      .image "https://shop.example/favicon.ico" ∧
    shopLogoRender "My Shop" none none false = .letter "M" ∧
    shopLogoRender "  " none (some "x.png") true = .letter "L" := by
  have h1 := (shopLogo_rendering "My Shop" (some "https://shop.example")
    (some " logo.png ") false).1 (by decide) rfl
  have h2 := (shopLogo_rendering "My Shop" (some "https://shop.example")
    none false).2.1 (by decide) (by decide) rfl
  have h3 := (shopLogo_rendering "My Shop" none none false).2.2.2.1
    (by decide) rfl
  have h4 := (shopLogo_rendering "  " none (some "x.png") true).2.2.2.2 rfl
  refine ⟨by rw [h1]; decide, by rw [h2]; decide, by rw [h3]; decide,
    by rw [h4]; decide⟩

end LdcShop
